import Mathlib

/-!
Shallow embedding of the retry/recovery core of the ocr-gemini-pipeline
repository: the error classifier (`engine/errors.py`), the retry decision
engine (`engine/retry_logic.py`), the orchestrator's in-attempt recovery
loop and pre-flight history check (`cli.py`), and the run-row update
semantics of the repository layer (`db/repo.py`).
-/

namespace OcrGemini

/-- Error kinds, from `engine/errors.py` (`class ErrorKind(str, Enum)`). -/
inductive ErrorKind where
  | transient
  | permanent
  | unknown
deriving DecidableEq, Repr

/-- The string value of an `ErrorKind` member (`ErrorKind.TRANSIENT.value` etc.). -/
def ErrorKind.value : ErrorKind → String
  | .transient => "transient"
  | .permanent => "permanent"
  | .unknown => "unknown"

/-- A Python exception as observed by `classify_error`: its type name
(`type(e).__name__`), its message (`str(e)`), and whether it is an instance
of `FileNotFoundError`. -/
structure PyExc where
  typeName : String
  msg : String
  isFileNotFound : Bool
deriving DecidableEq, Repr

/-- `lo.isPrefixOfChars l`: the character list `lo` is a prefix of `l`. -/
def isPrefixOfChars : List Char → List Char → Bool
  | [], _ => true
  | _ :: _, [] => false
  | a :: as, b :: bs => a = b && isPrefixOfChars as bs

/-- `isInfixOfChars pat l`: `pat` occurs contiguously inside `l`. -/
def isInfixOfChars (pat : List Char) : List Char → Bool
  | [] => isPrefixOfChars pat []
  | b :: bs => isPrefixOfChars pat (b :: bs) || isInfixOfChars pat bs

/-- Python `pat in s` for strings: substring containment. -/
def strContains (s pat : String) : Bool :=
  isInfixOfChars pat.toList s.toList

/-- Python `str.lower()`, character by character (the source only matches
ASCII keywords, where this agrees with Python). -/
def strLower (s : String) : String :=
  ⟨s.data.map Char.toLower⟩

/-- `classify_error` from `engine/errors.py`, checks in source order:
Playwright-style error type names, transient message keywords, then
permanent conditions, defaulting to `unknown`. -/
def classify_error (e : PyExc) : ErrorKind :=
  let error_msg := strLower e.msg
  let error_type := e.typeName
  if strContains error_type "TimeoutError" then .transient
  else if strContains error_type "TargetClosedError" then .transient
  else if strContains error_msg "detached" then .transient
  else if strContains error_msg "execution context was destroyed" then .transient
  else if strContains error_msg "navigating to" && strContains error_msg "timeout" then .transient
  else if strContains error_msg "network" && strContains error_msg "error" then .transient
  else if e.isFileNotFound then .permanent
  else if strContains error_msg "login" || strContains error_msg "auth" then .permanent
  else if strContains error_msg "cookie" && strContains error_msg "missing" then .permanent
  else if strContains error_msg "invalid" && strContains error_msg "format" then .permanent
  else .unknown

/-- The transient checks of `classify_error` (steps 1 and 2 of the source),
as one predicate: true iff some transient type-name or message pattern fires. -/
def transientIndicators (e : PyExc) : Bool :=
  let error_msg := strLower e.msg
  strContains e.typeName "TimeoutError" ||
  strContains e.typeName "TargetClosedError" ||
  strContains error_msg "detached" ||
  strContains error_msg "execution context was destroyed" ||
  (strContains error_msg "navigating to" && strContains error_msg "timeout") ||
  (strContains error_msg "network" && strContains error_msg "error")

/-- The permanent message checks of `classify_error` (step 3, message part). -/
def permanentMsgIndicators (e : PyExc) : Bool :=
  let error_msg := strLower e.msg
  (strContains error_msg "login" || strContains error_msg "auth") ||
  (strContains error_msg "cookie" && strContains error_msg "missing") ||
  (strContains error_msg "invalid" && strContains error_msg "format")

/-- The latest-run snapshot consumed by `decide_retry_action`
(`OcrRepo.get_latest_run` returns `run_id`, `status`, `attempt_no`,
`error_kind`; `attempt_no` and `error_kind` are read with `.get`, so they
may be absent). -/
structure RunSnapshot where
  status : String
  attempt_no : Option Nat
  error_kind : Option String
  run_id : Nat
deriving DecidableEq, Repr

/-- The configuration fields consumed by the retry decision engine and the
orchestrator (`PipelineConfig` as constructed in `cli.py`). -/
structure PipelineConfig where
  force : Bool
  resume : Bool
  retry_failed : Bool
  max_attempts : Nat
  retry_error_kinds : List String
deriving DecidableEq, Repr

/-- The decision returned by `decide_retry_action`. -/
structure RetryAction where
  should_process : Bool
  reason : String
  attempt_no : Nat
  parent_run_id : Option Nat
deriving DecidableEq, Repr

/-- `last_run.get('attempt_no') or 1`: Python `or` coerces both a missing
key and a falsy (zero) value to 1. -/
def prevAttemptsOf : Option Nat → Nat
  | none => 1
  | some n => if n = 0 then 1 else n

/-- `kind_to_check = prev_kind if prev_kind else "unknown"`: Python
truthiness maps both a missing kind and an empty string to `"unknown"`. -/
def kindToCheck : Option String → String
  | none => "unknown"
  | some s => if s = "" then "unknown" else s

/-- `decide_retry_action` from `engine/retry_logic.py`: decides whether to
process a document given its latest run and the configuration. -/
def decide_retry_action (last_run : Option RunSnapshot) (cfg : PipelineConfig) :
    RetryAction :=
  match last_run with
  | none =>
      if cfg.retry_failed then
        { should_process := false,
          reason := "No prior run (and --retry-failed is set)",
          attempt_no := 1, parent_run_id := none }
      else
        { should_process := true, reason := "New document",
          attempt_no := 1, parent_run_id := none }
  | some prior =>
      let status := prior.status
      let prev_attempts := prevAttemptsOf prior.attempt_no
      let prev_kind := prior.error_kind
      let run_id := prior.run_id
      let next_attempt := prev_attempts + 1
      let parent := some run_id
      if cfg.force then
        { should_process := true, reason := "Force retry",
          attempt_no := next_attempt, parent_run_id := parent }
      else if status = "done" then
        { should_process := false, reason := "Already done",
          attempt_no := next_attempt, parent_run_id := parent }
      else if status = "skipped" then
        if cfg.resume || cfg.retry_failed then
          { should_process := true, reason := "Resuming skipped",
            attempt_no := next_attempt, parent_run_id := parent }
        else
          { should_process := false, reason := "Previously skipped",
            attempt_no := next_attempt, parent_run_id := parent }
      else if status = "failed" then
        if !(cfg.retry_failed || cfg.resume) then
          { should_process := false,
            reason := "Failed (use --resume or --retry-failed)",
            attempt_no := next_attempt, parent_run_id := parent }
        else if cfg.max_attempts ≤ prev_attempts then
          { should_process := false,
            reason := s!"Max attempts reached ({prev_attempts})",
            attempt_no := next_attempt, parent_run_id := parent }
        else if prev_kind = some ErrorKind.permanent.value then
          { should_process := false, reason := "Permanent error (permanent)",
            attempt_no := next_attempt, parent_run_id := parent }
        else
          let kind := kindToCheck prev_kind
          if cfg.retry_error_kinds.contains kind then
            { should_process := true, reason := s!"Retrying {kind} failure",
              attempt_no := next_attempt, parent_run_id := parent }
          else
            { should_process := false,
              reason := "Error kind \x27" ++ kind ++ "\x27 not in retry list",
              attempt_no := next_attempt, parent_run_id := parent }
      else if status = "processing" || status = "queued" then
        if cfg.resume || cfg.retry_failed then
          { should_process := true,
            reason := s!"Resuming incomplete run ({status})",
            attempt_no := next_attempt, parent_run_id := parent }
        else
          { should_process := false,
            reason := s!"Status {status} (use --resume to reset)",
            attempt_no := next_attempt, parent_run_id := parent }
      else
        { should_process := true, reason := "New document",
          attempt_no := next_attempt, parent_run_id := parent }


/-! ## Claims about the retry decision engine -/

/-- C1: code behavior at the spec-violating input. The spec (and the
repository's own test `test_decide_resume_skipped_false`) require a prior
`skipped` run to stay skipped under `--resume` without `--force`, but
`decide_retry_action` resumes it. -/
theorem skipped_resumed_under_resume_flag :
    (decide_retry_action (some ⟨"skipped", some 1, none, 10⟩)
      ⟨false, true, false, 3, ["transient", "unknown"]⟩).should_process = true ∧
    (decide_retry_action (some ⟨"skipped", some 1, none, 10⟩)
      ⟨false, true, false, 3, ["transient", "unknown"]⟩).reason = "Resuming skipped" := by
  constructor <;> rfl

/-- C2: with no prior run, the decision is to process as attempt 1 with no
parent, except that `retry_failed` forces a skip. -/
theorem decide_no_prior_run (cfg : PipelineConfig) :
    (decide_retry_action none cfg).should_process = !cfg.retry_failed ∧
    (decide_retry_action none cfg).attempt_no = 1 ∧
    (decide_retry_action none cfg).parent_run_id = none := by
  cases h : cfg.retry_failed <;> simp [decide_retry_action, h]

/-- C3: `force` short-circuits everything: whatever the prior status, the
decision is to process at `prior.attempt_no + 1` with the prior run as
parent. -/
theorem decide_force_short_circuits (prior : RunSnapshot) (cfg : PipelineConfig)
    (n : Nat) (hf : cfg.force = true) (ha : prior.attempt_no = some n) (hn : 0 < n) :
    decide_retry_action (some prior) cfg =
      { should_process := true, reason := "Force retry",
        attempt_no := n + 1, parent_run_id := some prior.run_id } := by
  simp [decide_retry_action, prevAttemptsOf, hf, ha, Nat.pos_iff_ne_zero.mp hn]

/-- Witness for C3 at a concrete done run under force. -/
theorem decide_force_short_circuits_witness :
    decide_retry_action (some ⟨"done", some 1, none, 10⟩)
      ⟨true, false, false, 3, ["transient", "unknown"]⟩ =
      { should_process := true, reason := "Force retry",
        attempt_no := 2, parent_run_id := some 10 } :=
  decide_force_short_circuits ⟨"done", some 1, none, 10⟩
    ⟨true, false, false, 3, ["transient", "unknown"]⟩ 1 rfl rfl (by decide)

/-- C4: a prior failed run with a permanent error kind is never processed
without `force`, whatever `resume` and `retry_failed` are. -/
theorem decide_permanent_never_retried (prior : RunSnapshot) (cfg : PipelineConfig)
    (hf : cfg.force = false) (hs : prior.status = "failed")
    (hk : prior.error_kind = some "permanent") :
    (decide_retry_action (some prior) cfg).should_process = false := by
  simp only [decide_retry_action, hf, hs, hk]
  repeat' split <;> simp_all [ErrorKind.value]

/-- Witness for C4: scenario D of the spec (failed permanent under
retry_failed). -/
theorem decide_permanent_never_retried_witness :
    (decide_retry_action (some ⟨"failed", some 1, some "permanent", 10⟩)
      ⟨false, false, true, 3, ["transient", "unknown"]⟩).should_process = false :=
  decide_permanent_never_retried ⟨"failed", some 1, some "permanent", 10⟩
    ⟨false, false, true, 3, ["transient", "unknown"]⟩ rfl rfl rfl

/-- C5: a failed run under `resume`/`retry_failed` (without `force`) is
skipped with a max-attempts reason once `prior.attempt_no` reaches
`max_attempts`; at the boundary below, attempt 2 of 3 is still processed
as attempt 3. -/
theorem decide_max_attempts_boundary :
    (∀ (prior : RunSnapshot) (cfg : PipelineConfig) (n : Nat),
      cfg.force = false → prior.status = "failed" →
      (cfg.retry_failed || cfg.resume) = true →
      prior.attempt_no = some n → 0 < n → cfg.max_attempts ≤ n →
      decide_retry_action (some prior) cfg =
        { should_process := false, reason := s!"Max attempts reached ({n})",
          attempt_no := n + 1, parent_run_id := some prior.run_id }) ∧
    decide_retry_action (some ⟨"failed", some 2, some "transient", 20⟩)
      ⟨false, false, true, 3, ["transient", "unknown"]⟩ =
      { should_process := true, reason := "Retrying transient failure",
        attempt_no := 3, parent_run_id := some 20 } := by
  refine ⟨?_, rfl⟩
  intro prior cfg n hf hs hr ha hn hm
  simp [decide_retry_action, prevAttemptsOf, hf, hs, hr, ha,
    Nat.pos_iff_ne_zero.mp hn, hm]

/-- Witness for C5: attempt 3 of 3 is skipped with the max-attempts reason. -/
theorem decide_max_attempts_boundary_witness :
    decide_retry_action (some ⟨"failed", some 3, some "transient", 30⟩)
      ⟨false, false, true, 3, ["transient", "unknown"]⟩ =
      { should_process := false, reason := "Max attempts reached (3)",
        attempt_no := 4, parent_run_id := some 30 } :=
  decide_max_attempts_boundary.1 ⟨"failed", some 3, some "transient", 30⟩
    ⟨false, false, true, 3, ["transient", "unknown"]⟩ 3 rfl rfl rfl rfl
    (by decide) (by decide)

/-- C6: a failed run that passes the flag, max-attempts and permanent-error
checks is processed exactly when its (defaulted) error kind is in
`retry_error_kinds`, and a skip names the excluded kind; scenario C of the
spec is the concrete instance. -/
theorem decide_retry_kind_membership :
    (∀ (prior : RunSnapshot) (cfg : PipelineConfig) (n : Nat),
      cfg.force = false → prior.status = "failed" →
      (cfg.retry_failed || cfg.resume) = true →
      prior.attempt_no = some n → 0 < n → n < cfg.max_attempts →
      prior.error_kind ≠ some "permanent" →
      (((decide_retry_action (some prior) cfg).should_process = true ↔
        kindToCheck prior.error_kind ∈ cfg.retry_error_kinds) ∧
      (kindToCheck prior.error_kind ∉ cfg.retry_error_kinds →
        (decide_retry_action (some prior) cfg).reason =
          "Error kind \x27" ++ kindToCheck prior.error_kind ++ "\x27 not in retry list") ∧
      (decide_retry_action (some prior) cfg).attempt_no = n + 1 ∧
      (decide_retry_action (some prior) cfg).parent_run_id = some prior.run_id)) ∧
    decide_retry_action (some ⟨"failed", some 1, some "transient", 10⟩)
      ⟨false, false, true, 3, ["transient", "unknown"]⟩ =
      { should_process := true, reason := "Retrying transient failure",
        attempt_no := 2, parent_run_id := some 10 } := by
  refine ⟨?_, rfl⟩
  intro prior cfg n hf hs hr ha hn hm hk
  have hle : ¬ cfg.max_attempts ≤ n := by omega
  have hkv : ¬ prior.error_kind = some ErrorKind.permanent.value := by
    simpa [ErrorKind.value] using hk
  by_cases hmem : kindToCheck prior.error_kind ∈ cfg.retry_error_kinds <;>
    simp [decide_retry_action, prevAttemptsOf, hf, hs, hr, ha,
      Nat.pos_iff_ne_zero.mp hn, hle, hkv, hmem]

/-- Witness for C6: an excluded kind is skipped with a reason naming it. -/
theorem decide_retry_kind_membership_witness :
    ((decide_retry_action (some ⟨"failed", some 1, some "unknown", 11⟩)
      ⟨false, true, false, 3, ["transient"]⟩).should_process = false ∧
    (decide_retry_action (some ⟨"failed", some 1, some "unknown", 11⟩)
      ⟨false, true, false, 3, ["transient"]⟩).reason =
        "Error kind \x27unknown\x27 not in retry list") := by
  have h := (decide_retry_kind_membership.1 ⟨"failed", some 1, some "unknown", 11⟩
    ⟨false, true, false, 3, ["transient"]⟩ 1 rfl rfl rfl rfl
    (by decide) (by decide) (by decide))
  refine ⟨?_, h.2.1 (by decide)⟩
  have hb := h.1
  revert hb
  cases hx : (decide_retry_action (some ⟨"failed", some 1, some "unknown", 11⟩)
      ⟨false, true, false, 3, ["transient"]⟩).should_process
  · intro _; rfl
  · intro hb
    exact absurd (hb.mp rfl) (by decide)

/-! ## Claims about the error classifier -/

/-- `classify_error` factored through the two indicator predicates: the
transient checks run first, then `FileNotFoundError` and the permanent
message checks, then the `unknown` default. -/
theorem classify_error_cases (e : PyExc) :
    classify_error e =
      if transientIndicators e then ErrorKind.transient
      else if e.isFileNotFound || permanentMsgIndicators e then ErrorKind.permanent
      else ErrorKind.unknown := by
  by_cases h1 : strContains e.typeName "TimeoutError" <;>
  by_cases h2 : strContains e.typeName "TargetClosedError" <;>
  by_cases h3 : strContains (strLower e.msg) "detached" <;>
  by_cases h4 : strContains (strLower e.msg) "execution context was destroyed" <;>
  by_cases h5 : (strContains (strLower e.msg) "navigating to" &&
      strContains (strLower e.msg) "timeout") = true <;>
  by_cases h6 : (strContains (strLower e.msg) "network" &&
      strContains (strLower e.msg) "error") = true <;>
  by_cases hf : e.isFileNotFound <;>
  by_cases p1 : (strContains (strLower e.msg) "login" ||
      strContains (strLower e.msg) "auth") = true <;>
  by_cases p2 : (strContains (strLower e.msg) "cookie" &&
      strContains (strLower e.msg) "missing") = true <;>
  by_cases p3 : (strContains (strLower e.msg) "invalid" &&
      strContains (strLower e.msg) "format") = true <;>
  simp [classify_error, transientIndicators, permanentMsgIndicators,
    h1, h2, h3, h4, h5, h6, hf, p1, p2, p3]

/-- C7 counterexample: a `FileNotFoundError` whose message matches a
transient pattern is classified TRANSIENT, not PERMANENT, because the
transient message checks run before the `FileNotFoundError` check. -/
theorem classify_fnf_not_always_permanent :
    (PyExc.mk "FileNotFoundError" "element is detached" true).isFileNotFound = true ∧
    classify_error (PyExc.mk "FileNotFoundError" "element is detached" true) ≠
      ErrorKind.permanent ∧
    classify_error (PyExc.mk "FileNotFoundError" "element is detached" true) =
      ErrorKind.transient := by
  refine ⟨rfl, by decide, rfl⟩

/-- C7 amended: a TimeoutError-named exception is always TRANSIENT; an
exception with no transient indicator that is a `FileNotFoundError` or has
a permanent message pattern is PERMANENT; an exception matching no pattern
is UNKNOWN (and `classify_error` is a total function by construction). -/
theorem classify_error_amended (e : PyExc) :
    (strContains e.typeName "TimeoutError" = true →
      classify_error e = ErrorKind.transient) ∧
    (transientIndicators e = false →
      (e.isFileNotFound || permanentMsgIndicators e) = true →
      classify_error e = ErrorKind.permanent) ∧
    (transientIndicators e = false → e.isFileNotFound = false →
      permanentMsgIndicators e = false →
      classify_error e = ErrorKind.unknown) := by
  refine ⟨?_, ?_, ?_⟩
  · intro h
    simp [classify_error, h]
  · intro ht hp
    rw [classify_error_cases]
    simp [ht, hp]
  · intro ht hf hp
    rw [classify_error_cases]
    simp [ht, hf, hp]

/-- Witness for C7 amended: one concrete exception per classification. -/
theorem classify_error_amended_witness :
    classify_error (PyExc.mk "TimeoutError" "Timeout occurred" false) =
      ErrorKind.transient ∧
    classify_error (PyExc.mk "Exception" "Please login to continue" false) =
      ErrorKind.permanent ∧
    classify_error (PyExc.mk "Exception" "Some random failure" false) =
      ErrorKind.unknown :=
  ⟨(classify_error_amended (PyExc.mk "TimeoutError" "Timeout occurred" false)).1
      (by decide),
   (classify_error_amended (PyExc.mk "Exception" "Please login to continue" false)).2.1
      (by decide) (by decide),
   (classify_error_amended (PyExc.mk "Exception" "Some random failure" false)).2.2
      (by decide) (by decide) (by decide)⟩

/-! ## Orchestrator: in-attempt recovery loop (`cli.py`, `while True`) -/

/-- Observable events of one processing attempt in the orchestrator loop,
in the order the source emits them: run/step bookkeeping, engine calls,
and the terminal outcome. -/
inductive OcrEvent where
  | markProcessing
  | stepEngineStart
  | ocrCall (k : Nat)
  | stepRecoverStart
  | recoverCall
  | stepRecoverDone
  | stepRecoverFailed (msg : String)
  | markDone
  | stepEngineFinishDone
  | markFailed (error_kind : String) (msg : String)
  | stepEngineFinishFailed (msg : String)
deriving DecidableEq, Repr

/-- `max_recovery_retries = 1` in `cli.py`. -/
def max_recovery_retries : Nat := 1

/-- The recovery cycle of `cli.py`: mark the recover_refresh step started,
call `engine.recover()`, and mark the step done or failed — the control
flow continues either way. -/
def recoveryCycleEvents (recover : Except PyExc Unit) : List OcrEvent :=
  match recover with
  | .ok _ => [OcrEvent.stepRecoverStart, OcrEvent.recoverCall,
      OcrEvent.stepRecoverDone]
  | .error re => [OcrEvent.stepRecoverStart, OcrEvent.recoverCall,
      OcrEvent.stepRecoverFailed re.msg]

set_option linter.unusedVariables false in
/-- The `while True` recovery loop of `cli.py` for one attempt: `ocr k` is
the outcome of the k-th `engine.ocr` call of this attempt, `recover` the
outcome of `engine.recover()`. Mirrors the source: mark processing and the
engine_start step, call ocr; on success mark done; on a transient error
with recovery budget left (`recovery_count < max_recovery_retries`), run
one recovery cycle and loop; otherwise mark the run failed with the
classified kind and message. The dependent `if` keeps the budget bound in
scope for the termination argument. -/
def attemptLoop (ocr : Nat → Except PyExc Unit) (recover : Except PyExc Unit)
    (call_idx recovery_count : Nat) : List OcrEvent :=
  let pre := [OcrEvent.markProcessing, OcrEvent.stepEngineStart,
    OcrEvent.ocrCall call_idx]
  match ocr call_idx with
  | .ok _ =>
      pre ++ [OcrEvent.markDone, OcrEvent.stepEngineFinishDone]
  | .error e =>
      if h : classify_error e = ErrorKind.transient ∧
          recovery_count < max_recovery_retries then
        pre ++ recoveryCycleEvents recover ++
          attemptLoop ocr recover (call_idx + 1) (recovery_count + 1)
      else
        pre ++ [OcrEvent.markFailed (classify_error e).value e.msg,
          OcrEvent.stepEngineFinishFailed e.msg]
termination_by max_recovery_retries - recovery_count
decreasing_by omega

/-- One whole attempt: the loop entered with `recovery_count = 0`. -/
def runAttempt (ocr : Nat → Except PyExc Unit) (recover : Except PyExc Unit) :
    List OcrEvent :=
  attemptLoop ocr recover 0 0

/-- True exactly on `ocrCall` events. -/
def isOcrCallEv : OcrEvent → Bool
  | .ocrCall _ => true
  | _ => false

/-- Number of `recoverCall` events in a trace. -/
def countRecoverCalls : List OcrEvent → Nat
  | [] => 0
  | e :: rest => (if e = OcrEvent.recoverCall then 1 else 0) + countRecoverCalls rest

/-- Number of `ocrCall` events in a trace. -/
def countOcrCalls : List OcrEvent → Nat
  | [] => 0
  | e :: rest => (if isOcrCallEv e then 1 else 0) + countOcrCalls rest

/-- Unfolding: a successful `engine.ocr` call ends the loop with the run
marked done. -/
theorem attemptLoop_ok {ocr : Nat → Except PyExc Unit} {recover : Except PyExc Unit}
    {i rc : Nat} (h : ocr i = Except.ok ()) :
    attemptLoop ocr recover i rc =
      [.markProcessing, .stepEngineStart, .ocrCall i, .markDone,
       .stepEngineFinishDone] := by
  conv_lhs => rw [attemptLoop.eq_def]
  simp only [h]
  rfl

/-- Unfolding: a non-transient error, or one with the recovery budget
spent, ends the loop with the run marked failed. -/
theorem attemptLoop_stop {ocr : Nat → Except PyExc Unit} {recover : Except PyExc Unit}
    {i rc : Nat} {e : PyExc} (h : ocr i = Except.error e)
    (hcond : ¬ (classify_error e = ErrorKind.transient ∧ rc < max_recovery_retries)) :
    attemptLoop ocr recover i rc =
      [.markProcessing, .stepEngineStart, .ocrCall i,
       .markFailed (classify_error e).value e.msg, .stepEngineFinishFailed e.msg] := by
  conv_lhs => rw [attemptLoop.eq_def]
  simp only [h]
  rw [dif_neg hcond]
  rfl

/-- Unfolding: a transient error with budget left runs one recovery cycle
(whatever `recover` yields) and loops. -/
theorem attemptLoop_recover {ocr : Nat → Except PyExc Unit} {recover : Except PyExc Unit}
    {i rc : Nat} {e : PyExc} (h : ocr i = Except.error e)
    (ht : classify_error e = ErrorKind.transient) (hrc : rc < max_recovery_retries) :
    attemptLoop ocr recover i rc =
      [.markProcessing, .stepEngineStart, .ocrCall i] ++
      recoveryCycleEvents recover ++
      attemptLoop ocr recover (i + 1) (rc + 1) := by
  conv_lhs => rw [attemptLoop.eq_def]
  simp only [h]
  rw [dif_pos ⟨ht, hrc⟩]

theorem countRecoverCalls_append (a b : List OcrEvent) :
    countRecoverCalls (a ++ b) = countRecoverCalls a + countRecoverCalls b := by
  induction a with
  | nil => simp [countRecoverCalls]
  | cons x xs ih => simp [countRecoverCalls, ih]; omega

theorem countOcrCalls_append (a b : List OcrEvent) :
    countOcrCalls (a ++ b) = countOcrCalls a + countOcrCalls b := by
  induction a with
  | nil => simp [countOcrCalls]
  | cons x xs ih => simp [countOcrCalls, ih]; omega

/-- C8: within one attempt, `engine.recover` runs at most once and only
after a transient `engine.ocr` error; after a recovery cycle the ocr call
is retried exactly once; a non-transient first error, or any second error,
ends the attempt marked failed with the classified kind and message. -/
theorem recovery_loop_bounded (ocr : Nat → Except PyExc Unit)
    (recover : Except PyExc Unit) :
    countRecoverCalls (runAttempt ocr recover) ≤ 1 ∧
    (countRecoverCalls (runAttempt ocr recover) = 1 →
      ∃ e, ocr 0 = Except.error e ∧ classify_error e = ErrorKind.transient) ∧
    (∀ e, ocr 0 = Except.error e → classify_error e = ErrorKind.transient →
      countOcrCalls (runAttempt ocr recover) = 2 ∧
      countRecoverCalls (runAttempt ocr recover) = 1) ∧
    (∀ e, ocr 0 = Except.error e → classify_error e ≠ ErrorKind.transient →
      runAttempt ocr recover =
        [.markProcessing, .stepEngineStart, .ocrCall 0,
         .markFailed (classify_error e).value e.msg,
         .stepEngineFinishFailed e.msg]) ∧
    (∀ e e2, ocr 0 = Except.error e → classify_error e = ErrorKind.transient →
      ocr 1 = Except.error e2 →
      OcrEvent.markFailed (classify_error e2).value e2.msg ∈ runAttempt ocr recover) := by
  have hbudget : ∀ (e2 : PyExc), ocr 1 = Except.error e2 →
      attemptLoop ocr recover 1 1 =
        [.markProcessing, .stepEngineStart, .ocrCall 1,
         .markFailed (classify_error e2).value e2.msg,
         .stepEngineFinishFailed e2.msg] := by
    intro e2 h
    exact attemptLoop_stop h (by intro hc; exact absurd hc.2 (by decide))
  have key : ∀ (e : PyExc), ocr 0 = Except.error e →
      classify_error e = ErrorKind.transient →
      runAttempt ocr recover =
        [OcrEvent.markProcessing, OcrEvent.stepEngineStart, OcrEvent.ocrCall 0] ++
        recoveryCycleEvents recover ++
        attemptLoop ocr recover 1 1 := by
    intro e h0 ht
    unfold runAttempt
    exact attemptLoop_recover h0 ht (by decide)
  have tailCounts : countRecoverCalls (attemptLoop ocr recover 1 1) = 0 ∧
      countOcrCalls (attemptLoop ocr recover 1 1) = 1 := by
    cases h1 : ocr 1 with
    | ok u =>
      cases u
      rw [attemptLoop_ok h1]
      simp [countRecoverCalls, countOcrCalls, isOcrCallEv]
    | error e2 =>
      rw [hbudget e2 h1]
      simp [countRecoverCalls, countOcrCalls, isOcrCallEv]
  refine ⟨?_, ?_, ?_, ?_, ?_⟩
  · cases h0 : ocr 0 with
    | ok u =>
      cases u
      unfold runAttempt
      rw [attemptLoop_ok h0]
      simp [countRecoverCalls]
    | error e =>
      by_cases ht : classify_error e = ErrorKind.transient
      · rw [key e h0 ht, countRecoverCalls_append, countRecoverCalls_append]
        rcases tailCounts with ⟨hr, _⟩
        rw [hr]
        cases recover <;> simp [recoveryCycleEvents, countRecoverCalls]
      · unfold runAttempt
        rw [attemptLoop_stop h0 (by intro hc; exact absurd hc.1 ht)]
        simp [countRecoverCalls]
  · intro hcount
    cases h0 : ocr 0 with
    | ok u =>
      cases u
      unfold runAttempt at hcount
      rw [attemptLoop_ok h0] at hcount
      simp [countRecoverCalls] at hcount
    | error e =>
      by_cases ht : classify_error e = ErrorKind.transient
      · exact ⟨e, rfl, ht⟩
      · unfold runAttempt at hcount
        rw [attemptLoop_stop h0 (by intro hc; exact absurd hc.1 ht)] at hcount
        simp [countRecoverCalls] at hcount
  · intro e h0 ht
    rw [key e h0 ht, countOcrCalls_append, countOcrCalls_append,
      countRecoverCalls_append, countRecoverCalls_append]
    rcases tailCounts with ⟨hr, ho⟩
    rw [hr, ho]
    cases recover <;> simp [recoveryCycleEvents, countRecoverCalls, countOcrCalls, isOcrCallEv]
  · intro e h0 ht
    unfold runAttempt
    rw [attemptLoop_stop h0 (by intro hc; exact absurd hc.1 ht)]
  · intro e e2 h0 ht h1
    rw [key e h0 ht, hbudget e2 h1]
    cases recover <;> simp [recoveryCycleEvents]

/-- A concrete engine for the C8 witness: the first ocr call times out
(transient), the retry fails with a generic error. -/
def witnessOcr : Nat → Except PyExc Unit :=
  fun k =>
    if k = 0 then Except.error (PyExc.mk "TimeoutError" "Timeout occurred" false)
    else Except.error (PyExc.mk "Exception" "boom" false)

/-- Witness for C8 at the concrete engine above. -/
theorem recovery_loop_bounded_witness :
    countOcrCalls (runAttempt witnessOcr (Except.ok ())) = 2 ∧
    countRecoverCalls (runAttempt witnessOcr (Except.ok ())) = 1 ∧
    OcrEvent.markFailed "unknown" "boom" ∈ runAttempt witnessOcr (Except.ok ()) := by
  have h := recovery_loop_bounded witnessOcr (Except.ok ())
  refine ⟨(h.2.2.1 (PyExc.mk "TimeoutError" "Timeout occurred" false) rfl (by decide)).1,
    (h.2.2.1 (PyExc.mk "TimeoutError" "Timeout occurred" false) rfl (by decide)).2, ?_⟩
  exact h.2.2.2.2 (PyExc.mk "TimeoutError" "Timeout occurred" false)
    (PyExc.mk "Exception" "boom" false) rfl (by decide) rfl

/-! ## Orchestrator: pre-flight history check (`cli.py`) -/

/-- Per-document outcome of the pre-flight history check in `cli.py`:
either the decision logic ran (skip or process with its attempt/parent),
or it raised and the document is aborted (only under `--retry-failed`) or
processed with the fresh-run defaults. -/
inductive PreflightOutcome where
  | skipped (reason : String)
  | aborted
  | process (attempt_no : Nat) (parent_run_id : Option Nat)
deriving DecidableEq, Repr

/-- The pre-flight block of `cli.py` (hash, document and latest-run lookup
and `decide_retry_action`, with its `except` handler): `hist` is the result
of the repository calls, an exception or the latest-run snapshot. -/
def preflight (hist : Except PyExc (Option RunSnapshot))
    (cfg : PipelineConfig) : PreflightOutcome :=
  match hist with
  | .ok last_run =>
      let decision := decide_retry_action last_run cfg
      if !decision.should_process then .skipped decision.reason
      else .process decision.attempt_no decision.parent_run_id
  | .error _ =>
      if cfg.retry_failed then .aborted
      else .process 1 none

/-- C9: a pre-flight repository error never fails the batch: the document
falls back to attempt 1 with no parent, except under `retry_failed`, where
only this document is aborted. -/
theorem preflight_db_error_nonfatal (e : PyExc) (cfg : PipelineConfig) :
    preflight (Except.error e) cfg =
      if cfg.retry_failed then PreflightOutcome.aborted
      else PreflightOutcome.process 1 none := rfl

/-! ## Repository: `OcrRepo.mark_run_status` (`db/repo.py`) -/

/-- The mutable columns of an `ocr_run` row touched by `mark_run_status`,
plus `created_at` as a frame witness. -/
structure RunRow where
  status : String
  error_code : Option String
  error_message : Option String
  out_path : Option String
  error_kind : Option String
  retry_after_seconds : Option Int
  created_at : Option Nat
  started_at : Option Nat
  finished_at : Option Nat
deriving DecidableEq, Repr

/-- SQL `COALESCE(%s, column)`: the bind parameter when non-null, else the
stored column value. -/
def coalesceParam {α : Type} : Option α → Option α → Option α
  | some v, _ => some v
  | none, old => old

/-- The `UPDATE` of `OcrRepo.mark_run_status`: status set unconditionally,
the five optional fields coalesced with their stored values, `finished_at`
stamped on done/failed, `started_at` stamped on processing only when still
null. `now` stands for SQL `NOW()`. -/
def mark_run_status (row : RunRow) (now : Nat) (status : String)
    (error_code error_message out_path error_kind : Option String)
    (retry_after_seconds : Option Int) : RunRow :=
  { row with
    status := status
    error_code := coalesceParam error_code row.error_code
    error_message := coalesceParam error_message row.error_message
    out_path := coalesceParam out_path row.out_path
    error_kind := coalesceParam error_kind row.error_kind
    retry_after_seconds := coalesceParam retry_after_seconds row.retry_after_seconds
    finished_at := if status = "done" ∨ status = "failed" then some now
      else row.finished_at
    started_at := if status = "processing" ∧ row.started_at = none then some now
      else row.started_at }

/-- C10: `mark_run_status` sets only the status unconditionally; a `None`
argument leaves the stored value of its field untouched; `finished_at` is
stamped exactly for done/failed and `started_at` exactly for processing
when not yet set; `created_at` is untouched. -/
theorem mark_run_status_coalesce_frame (row : RunRow) (now : Nat) (status : String)
    (ec em op ek : Option String) (ras : Option Int) :
    (mark_run_status row now status ec em op ek ras).status = status ∧
    (ec = none → (mark_run_status row now status ec em op ek ras).error_code =
      row.error_code) ∧
    (em = none → (mark_run_status row now status ec em op ek ras).error_message =
      row.error_message) ∧
    (op = none → (mark_run_status row now status ec em op ek ras).out_path =
      row.out_path) ∧
    (ek = none → (mark_run_status row now status ec em op ek ras).error_kind =
      row.error_kind) ∧
    (ras = none → (mark_run_status row now status ec em op ek ras).retry_after_seconds =
      row.retry_after_seconds) ∧
    (mark_run_status row now status ec em op ek ras).finished_at =
      (if status = "done" ∨ status = "failed" then some now else row.finished_at) ∧
    (mark_run_status row now status ec em op ek ras).started_at =
      (if status = "processing" ∧ row.started_at = none then some now
        else row.started_at) ∧
    (mark_run_status row now status ec em op ek ras).created_at = row.created_at := by
  refine ⟨rfl, ?_, ?_, ?_, ?_, ?_, rfl, rfl, rfl⟩ <;>
    (intro h; subst h; rfl)

/-- Witness for C10 at a concrete processing row going to failed with only
an error message and kind supplied. -/
theorem mark_run_status_coalesce_frame_witness :
    (mark_run_status (RunRow.mk "processing" (some "E1") none (some "/o.txt")
        none none (some 1) (some 2) none) 5 "failed"
        none (some "boom") none (some "transient") none).status = "failed" ∧
    (mark_run_status (RunRow.mk "processing" (some "E1") none (some "/o.txt")
        none none (some 1) (some 2) none) 5 "failed"
        none (some "boom") none (some "transient") none).error_code = some "E1" ∧
    (mark_run_status (RunRow.mk "processing" (some "E1") none (some "/o.txt")
        none none (some 1) (some 2) none) 5 "failed"
        none (some "boom") none (some "transient") none).finished_at = some 5 := by
  have h := mark_run_status_coalesce_frame
    (RunRow.mk "processing" (some "E1") none (some "/o.txt")
      none none (some 1) (some 2) none) 5 "failed"
    none (some "boom") none (some "transient") none
  exact ⟨h.1, h.2.1 rfl, by rw [h.2.2.2.2.2.2.1]; rfl⟩

end OcrGemini
